import Mathlib

/-!
Verification of the speech-analysis server of the `newspeack` repository
(`src/server/index.js`).

The analysis engine (word counting, words per minute, filler-word
counting, long-pause detection, suggestion selection) and the request
orchestrator (upload, transcription submit, poll loop, analysis,
response shaping, temp-file cleanup) are embedded as pure Lean
functions.  JavaScript numbers are modelled as rationals (`Math.round`
is Mathlib `round`), fallible steps as `Except`, and the
`while (pollCount < maxPolls)` loop as a recursion on the fuel
`maxPolls - pollCount`.
-/

namespace Newspeack

/-! ## Word splitting: `transcriptText.split(/\s+/)` -/

/-- The characters matched by the regex class `\s` (ASCII part; the
transcripts handled by the analysis are ASCII). -/
def isWs (c : Char) : Bool :=
  c = ' ' || c = '\t' || c = '\n' || c = '\r' || c = '\x0b' || c = '\x0c'

/-- `split(/\s+/)`: split a character list at every maximal run of
whitespace, keeping the (possibly empty) fragments between runs, exactly
as JavaScript `String.prototype.split` does (a leading or trailing run
contributes an empty fragment; interior runs of any length act as one
separator).  The recursion processes the string from the right so that
it is structural: a whitespace character whose successor is also
whitespace belongs to the successor's run and adds nothing. -/
def splitWs : List Char → List (List Char)
  | [] => [[]]
  | c :: t =>
    if isWs c then
      match t, splitWs t with
      | [], r => [] :: r
      | d :: _, r => if isWs d then r else [] :: r
    else
      match splitWs t with
      | [] => [[c]]
      | w :: ws => (c :: w) :: ws

/-- `const words = transcriptText.split(/\s+/).filter(word => word.length > 0)` -/
def wordsOf (transcript : String) : List (List Char) :=
  (splitWs transcript.data).filter (fun word => 0 < word.length)

/-- `const wordCount = words.length` -/
def wordCount (transcript : String) : ℕ := (wordsOf transcript).length

/-! ## Words per minute -/

/-- `const audioDuration = transcriptData.audio_duration / 60;`
`const wordsPerMinute = audioDuration > 0 ? Math.round(wordCount / audioDuration) : 0;`
(`Math.round x` is `⌊x + 1/2⌋`, which is Mathlib `round` on `ℚ`). -/
def wordsPerMinute (transcript : String) (audio_duration : ℚ) : ℤ :=
  let audioDuration : ℚ := audio_duration / 60
  if 0 < audioDuration then round ((wordCount transcript : ℚ) / audioDuration) else 0

/-! ## Filler-word counting

Each lexicon entry `filler` is counted with
`new RegExp('\\b' + filler + '\\b', 'gi')` applied to the transcript.
Every lexicon entry starts and ends with a word character, so the `\b`
assertions reduce to: the neighbouring character is absent or not a word
character.  The `g` flag makes the matches leftmost and
non-overlapping; the `i` flag compares characters case-insensitively.
-/

/-- The regex class `\w`: `[A-Za-z0-9_]`. -/
def isWordChar (c : Char) : Bool := c.isAlpha || c.isDigit || c = '_'

/-- Case-insensitive comparison of the pattern `p` against the front of
`t` (the regex body under the `i` flag; the lexicon is ASCII). -/
def ciStartsWith : List Char → List Char → Bool
  | [], _ => true
  | _ :: _, [] => false
  | a :: p, b :: t => (a.toLower == b.toLower) && ciStartsWith p t

/-- The `\b` written after the pattern: satisfied at the end of the text
or before a non-word character (the pattern ends in a word character). -/
def boundaryAfter : List Char → Bool
  | [] => true
  | c :: _ => !(isWordChar c)

/-- A match of `\b<p>\b` starting at the head of `t`, where `prev` is
the character just before `t` in the full text (`none` at the start;
the pattern starts with a word character, so the leading `\b` holds when
`prev` is absent or not a word character). -/
def matchAt (p : List Char) (prev : Option Char) (t : List Char) : Bool :=
  (match prev with
   | none => true
   | some c => !(isWordChar c)) &&
  ciStartsWith p t && boundaryAfter (t.drop p.length)

/-- One global-regex scan, JavaScript `lastIndex` semantics: at each
position try the pattern; on a match count it and resume right after the
matched text, else advance one character.  `fuel` only bounds the number
of steps (every step consumes at least one character, the lexicon
patterns being non-empty), so `fuel = t.length` always suffices. -/
def countOccGo (p : List Char) : ℕ → Option Char → List Char → ℕ
  | 0, _, _ => 0
  | _ + 1, _, [] => 0
  | fuel + 1, prev, c :: t =>
    if matchAt p prev (c :: t) then
      1 + countOccGo p fuel (some ((c :: t).getD (p.length - 1) c)) (t.drop (p.length - 1))
    else
      countOccGo p fuel (some c) t

/-- `(transcriptText.match(regex) || []).length` for the pattern
`\b<p>\b` with flags `gi`. -/
def countOcc (p transcript : String) : ℕ :=
  countOccGo p.data transcript.data.length none transcript.data

/-- `const fillerWordsList = ['um', 'uh', 'like', 'so', 'you know', 'actually', 'basically', 'ahh','ummmm','uhhhh'];` -/
def fillerWordsList : List String :=
  ["um", "uh", "like", "so", "you know", "actually", "basically", "ahh", "ummmm", "uhhhh"]

/-- `fillerWordsList.reduce((count, filler) => count + (matches ? matches.length : 0), 0)` -/
def fillerWordCount (transcript : String) : ℕ :=
  fillerWordsList.foldl (fun count filler => count + countOcc filler transcript) 0

/-! ## Pacing suggestion -/

def tooFastMsg : String :=
  "Your pace is quite fast. Try speaking a bit more slowly to ensure your audience can follow along."

def tooSlowMsg : String :=
  "Your pace is a little slow. Try speaking a bit faster to keep your audience engaged."

def excellentPacingMsg : String :=
  "Your pacing is excellent! It\x27s right in the ideal range for presentations."

/-- Lines 118-125 of `index.js`. -/
def pacingSuggestion (wordsPerMinute : ℤ) : String :=
  if wordsPerMinute > 160 then tooFastMsg
  else if wordsPerMinute < 130 then tooSlowMsg
  else excellentPacingMsg

/-! ## Long-pause detection -/

/-- One entry of `transcriptData.words`.  A field is `none` when the
JavaScript value is missing or not a number
(`typeof w?.end === 'number' ? w.end : null`). -/
structure WordEntry where
  start : Option ℚ
  endOff : Option ℚ
  deriving DecidableEq

/-- The body of the loop over `wordsWithTimestamps` for one adjacent
pair: both offsets present, `diff = currStart - prevEnd`,
`pauseSeconds = diff > 100 ? diff / 1000 : diff`, long iff
`pauseSeconds > 2.0`. -/
def isLongPause (previousWord currentWord : WordEntry) : Bool :=
  match previousWord.endOff, currentWord.start with
  | some prevEnd, some currStart =>
    let diff : ℚ := currStart - prevEnd
    let pauseSeconds : ℚ := if 100 < diff then diff / 1000 else diff
    decide (2 < pauseSeconds)
  | _, _ => false

/-- The loop `for (let i = 1; i < wordsWithTimestamps.length; i++)`,
walking adjacent pairs in order. -/
def longPauseGo : WordEntry → List WordEntry → ℕ
  | _, [] => 0
  | previousWord, currentWord :: rest =>
    (if isLongPause previousWord currentWord then 1 else 0) + longPauseGo currentWord rest

/-- `longPauseCount` accumulated over the whole sequence. -/
def longPauseCount : List WordEntry → ℕ
  | [] => 0
  | w :: rest => longPauseGo w rest

/-! ## Pause / filler suggestion -/

def pauseHeavyMsg (longPauseCount : ℕ) : String :=
  "You paused for over 2 seconds " ++ toString longPauseCount ++
    " times. Try to make your transitions between sentences smoother."

def fillerHeavyMsg (fillerWordCount : ℕ) : String :=
  "You used " ++ toString fillerWordCount ++
    " filler words. Practice your speech to reduce reliance on words like \x27um\x27 and \x27like\x27."

def smoothFlowMsg : String :=
  "Great job on maintaining a smooth flow with minimal long pauses!"

/-- Lines 144-152 of `index.js`: the pause check has priority. -/
def pauseSuggestion (longPauseCount fillerWordCount : ℕ) : String :=
  if longPauseCount > 3 then pauseHeavyMsg longPauseCount
  else if fillerWordCount > 5 then fillerHeavyMsg fillerWordCount
  else smoothFlowMsg

/-! ## Request orchestrator (`POST /api/analyze`)

A thrown JavaScript error is modelled by its `message` and the optional
HTTP status of an attached axios response (`error.response?.status`).
Each external call (`assemblyai.post('/upload', ...)`,
`assemblyai.post('/transcript', ...)`, `assemblyai.get('/transcript/id')`)
either returns a value or throws, so the provider is a record of
`Except`-valued behaviours; the `k`-th poll request is `snaps k`.
The handler outcome records the HTTP response, whether the `finally`
block deleted the temporary upload (it runs on every path that entered
the `try`), and how many provider requests were made. -/

structure JsError where
  message : String
  status : Option ℕ
  deriving DecidableEq

/-- One `GET /transcript/{id}` payload.  `text` is `none` when the field
is null or absent; `words` is `none` when the field is absent or not an
array; `error` is the provider error detail used when `status = "error"`. -/
structure Snapshot where
  status : String
  text : Option String
  audio_duration : ℚ
  words : Option (List WordEntry)
  error : String
  deriving DecidableEq

structure Provider where
  upload : Except JsError String
  submit : String → Except JsError String
  snaps : ℕ → Except JsError Snapshot

/-- `const maxPolls = 20;` -/
def maxPolls : ℕ := 20

/-- `throw new Error('Transcription timed out after 60 seconds')` -/
def timedOutError : JsError :=
  { message := "Transcription timed out after 60 seconds", status := none }

/-- The loop `while (pollCount < maxPolls) { ... pollCount++ }` followed
by `if (pollCount >= maxPolls) throw ...`, written as a recursion on the
fuel `maxPolls - pollCount`.  Returns the outcome (the completed
snapshot, or the thrown error) together with the number of poll requests
performed. -/
def pollLoopGo (snaps : ℕ → Except JsError Snapshot) : ℕ → ℕ → Except JsError Snapshot × ℕ
  | 0, _ => (.error timedOutError, 0)
  | fuel + 1, pollCount =>
    match snaps pollCount with
    | .error e => (.error e, 1)
    | .ok transcriptData =>
      if transcriptData.status = "completed" then (.ok transcriptData, 1)
      else if transcriptData.status = "error" then
        (.error { message := "Transcription failed: " ++ transcriptData.error, status := none }, 1)
      else
        let r := pollLoopGo snaps fuel (pollCount + 1)
        (r.1, r.2 + 1)

def pollLoop (snaps : ℕ → Except JsError Snapshot) : Except JsError Snapshot × ℕ :=
  pollLoopGo snaps maxPolls 0

/-- The JSON body of the 200 response (`res.json({...})`);
`longPauseCount` itself is not part of the body, it only selects the
`pauses` suggestion. -/
structure SuccessBody where
  message : String
  transcript : String
  wordsPerMinute : ℤ
  fillerWordCount : ℕ
  pacing : String
  pauses : String
  deriving DecidableEq

/-- `const wordsWithTimestamps = Array.isArray(transcriptData.words) ? transcriptData.words : [];` -/
def wordsWithTimestamps (transcriptData : Snapshot) : List WordEntry :=
  transcriptData.words.getD []

/-- Step 4 of the handler: the analysis of a completed transcript
payload.  `transcriptData.text || ''` maps a null/absent (and an empty)
text to `''`, which is `Option.getD ""` here. -/
def analyzeSnapshot (transcriptData : Snapshot) : SuccessBody :=
  let transcript := transcriptData.text.getD ""
  let wpm := wordsPerMinute transcript transcriptData.audio_duration
  let fwc := fillerWordCount transcript
  let lpc := longPauseCount (wordsWithTimestamps transcriptData)
  { message := "Analysis complete!"
    transcript := transcript
    wordsPerMinute := wpm
    fillerWordCount := fwc
    pacing := pacingSuggestion wpm
    pauses := pauseSuggestion lpc fwc }

/-- The three response shapes the handler produces: `res.json(body)`
(HTTP 200), `res.status(400).json({error})`, and
`res.status(500).json({error, details})` (`details: undefined` is an
omitted field, hence `Option`). -/
inductive Response where
  | ok (body : SuccessBody)
  | badRequest (error : String)
  | serverError (error : String) (details : Option String)
  deriving DecidableEq

/-- The `details` field of a 500 body (`none` for the other shapes). -/
def Response.detailsField : Response → Option String
  | .serverError _ d => d
  | _ => none

structure HandlerOutcome where
  response : Response
  fileDeleted : Bool
  providerCalls : ℕ
  deriving DecidableEq

/-- JavaScript `s.includes(sub)`. -/
def hasSubstr (p : List Char) : List Char → Bool
  | [] => p.isEmpty
  | c :: t => p.isPrefixOf (c :: t) || hasSubstr p t

def includes (s sub : String) : Bool := hasSubstr sub.data s.data

/-- Lines 177-184: map the caught error to the user-facing message. -/
def errorMessageFor (e : JsError) : String :=
  if includes e.message "Transcription failed" then
    "Speech transcription failed. Please try again."
  else if includes e.message "timed out" then
    "Analysis timed out. Please try with a shorter recording."
  else if e.status = some 401 then
    "API authentication failed. Please check server configuration."
  else "An error occurred during analysis."

/-- The body of the `try` block: upload the file, request the
transcription, poll to completion, analyse.  The second component counts
the provider requests made (one upload, one submit, one per poll). -/
def runPipeline (p : Provider) : Except JsError SuccessBody × ℕ :=
  match p.upload with
  | .error e => (.error e, 1)
  | .ok uploadUrl =>
    match p.submit uploadUrl with
    | .error e => (.error e, 2)
    | .ok _transcriptId =>
      match pollLoop p.snaps with
      | (.error e, n) => (.error e, 2 + n)
      | (.ok transcriptData, n) => (.ok (analyzeSnapshot transcriptData), 2 + n)

/-- The whole `app.post('/api/analyze', ...)` handler.  `file` is
`req.file` (`none` when no `audio` field was attached), `nodeEnv` is
`process.env.NODE_ENV`.  The missing-file 400 returns before the `try`,
so no provider call happens and no cleanup runs; on every path through
the `try` the `finally` block deletes the temporary file. -/
def analyzeHandler (file : Option String) (nodeEnv : Option String) (p : Provider) :
    HandlerOutcome :=
  match file with
  | none => { response := .badRequest "No file uploaded.", fileDeleted := false, providerCalls := 0 }
  | some _filePath =>
    match runPipeline p with
    | (.ok body, n) => { response := .ok body, fileDeleted := true, providerCalls := n }
    | (.error e, n) =>
      { response := .serverError (errorMessageFor e)
          (if nodeEnv = some "development" then some e.message else none)
        fileDeleted := true
        providerCalls := n }

/-! ## Specification-side definitions and helper lemmas -/

/-- The gap normalization exactly as the spec words it: a gap greater
than 100 is milliseconds (divide by 1000 to get seconds), a gap of at
most 100 is already seconds. -/
def specNormalizeGap (gap : ℚ) : ℚ := if 100 < gap then gap / 1000 else gap

/-- The claim-side reading of a long adjacent pair: both offsets
numeric, and the normalized gap (current start minus previous end)
exceeds 2.0 seconds; a pair with a missing offset is skipped. -/
def specLongPair (pair : WordEntry × WordEntry) : Bool :=
  match pair.1.endOff, pair.2.start with
  | some prevEnd, some currStart => decide (2 < specNormalizeGap (currStart - prevEnd))
  | _, _ => false

/-- A completed snapshot used as a concrete witness input. -/
def demoSnap : Snapshot :=
  { status := "completed", text := some "hello world", audio_duration := 10
    words := some [], error := "" }

/-- A provider whose transcription completes on the first poll. -/
def demoProvider : Provider :=
  { upload := .ok "https://cdn.example/upload"
    submit := fun _ => .ok "transcript-1"
    snaps := fun _ => .ok demoSnap }

/-- A provider whose job never leaves the `processing` status. -/
def stuckProvider : Provider :=
  { upload := .ok "https://cdn.example/upload"
    submit := fun _ => .ok "transcript-1"
    snaps := fun _ => .ok
      { status := "processing", text := none, audio_duration := 0, words := none, error := "" } }

/-- A provider whose upload call throws at once. -/
def failingProvider : Provider :=
  { upload := .error { message := "boom", status := none }
    submit := fun _ => .ok "transcript-1"
    snaps := fun _ => .ok demoSnap }

/-- A completed snapshot whose `text` is null and whose `words` is not
an array. -/
def nullishSnap : Snapshot :=
  { status := "completed", text := none, audio_duration := 0, words := none, error := "" }

lemma specLongPair_eq (previousWord currentWord : WordEntry) :
    specLongPair (previousWord, currentWord) = isLongPause previousWord currentWord := by
  unfold specLongPair isLongPause specNormalizeGap
  rcases previousWord.endOff with _ | pe <;> rcases currentWord.start with _ | cs <;> rfl

lemma longPauseGo_eq_countP (rest : List WordEntry) : ∀ w : WordEntry,
    longPauseGo w rest = ((w :: rest).zip rest).countP specLongPair := by
  induction rest with
  | nil => intro w; rfl
  | cons c rs ih =>
    intro w
    simp only [longPauseGo, List.zip_cons_cons, List.countP_cons, ih c, specLongPair_eq]
    omega

/-- The unfolding of `splitWs` at a cons cell (its second equation). -/
lemma splitWs_cons (c : Char) (t : List Char) :
    splitWs (c :: t) =
      if isWs c then
        match t, splitWs t with
        | [], r => [] :: r
        | d :: _, r => if isWs d then r else [] :: r
      else
        match splitWs t with
        | [] => [[c]]
        | w :: ws => (c :: w) :: ws := rfl

/-- Duplicating the space of a whitespace boundary does not change the
result of `split(/\s+/)` at all: the two spaces belong to one run. -/
lemma splitWs_dup (post : List Char) : ∀ pre : List Char,
    splitWs (pre ++ ' ' :: ' ' :: post) = splitWs (pre ++ ' ' :: post)
  | [] => by
    simp only [List.nil_append]
    rw [splitWs_cons]
    dsimp only
    simp [isWs]
  | c :: pre => by
    have ih := splitWs_dup post pre
    cases pre with
    | nil =>
      simp only [List.nil_append] at ih
      simp only [List.cons_append, List.nil_append]
      rw [splitWs_cons c (' ' :: ' ' :: post), splitWs_cons c (' ' :: post)]
      dsimp only
      simp [isWs, ih]
    | cons d pre' =>
      simp only [List.cons_append] at ih ⊢
      rw [splitWs_cons c (d :: (pre' ++ ' ' :: ' ' :: post)),
          splitWs_cons c (d :: (pre' ++ ' ' :: post))]
      dsimp only
      rw [ih]

lemma foldl_add_eq (g : String → ℕ) : ∀ (l : List String) (n : ℕ),
    l.foldl (fun count filler => count + g filler) n = n + (l.map g).sum
  | [], n => by simp
  | f :: l, n => by
    simp [List.foldl_cons, foldl_add_eq g l, Nat.add_assoc]

/-- If every poll in the remaining budget returns a non-terminal status,
the loop exhausts the budget, makes exactly `fuel` more requests, and
throws the timeout error. -/
lemma pollLoopGo_timeout (snaps : ℕ → Except JsError Snapshot) :
    ∀ (fuel pollCount : ℕ),
    (∀ k, pollCount ≤ k → k < pollCount + fuel →
      ∃ d, snaps k = .ok d ∧ d.status ≠ "completed" ∧ d.status ≠ "error") →
    pollLoopGo snaps fuel pollCount = (.error timedOutError, fuel)
  | 0, _, _ => rfl
  | fuel + 1, pollCount, h => by
    obtain ⟨d, hd, hc, he⟩ := h pollCount le_rfl (by omega)
    have ih := pollLoopGo_timeout snaps fuel (pollCount + 1)
      (fun k hk1 hk2 => h k (by omega) (by omega))
    simp only [pollLoopGo, hd, if_neg hc, if_neg he, ih]

/-- The loop returns a snapshot (rather than throwing) only when that
snapshot, the last one polled, has status `completed`. -/
lemma pollLoopGo_ok_status (snaps : ℕ → Except JsError Snapshot) :
    ∀ (fuel pollCount : ℕ) (d : Snapshot) (n : ℕ),
    pollLoopGo snaps fuel pollCount = (.ok d, n) → d.status = "completed"
  | 0, pollCount, d, n, h => by simp [pollLoopGo] at h
  | fuel + 1, pollCount, d, n, h => by
    rw [pollLoopGo] at h
    rcases hs : snaps pollCount with e | td
    · rw [hs] at h; simp at h
    · rw [hs] at h
      dsimp only at h
      by_cases hc : td.status = "completed"
      · rw [if_pos hc] at h
        simp only [Prod.mk.injEq, Except.ok.injEq] at h
        exact h.1 ▸ hc
      · rw [if_neg hc] at h
        by_cases he : td.status = "error"
        · rw [if_pos he] at h; simp at h
        · rw [if_neg he] at h
          rcases hr : pollLoopGo snaps fuel (pollCount + 1) with ⟨r1, r2⟩
          rw [hr] at h
          simp only [Prod.mk.injEq] at h
          exact pollLoopGo_ok_status snaps fuel (pollCount + 1) d r2 (by rw [hr, h.1])

example : wordCount "hello world" = 2 := by decide
example : wordCount "a  b   c" = 3 := by decide
example : wordCount " a " = 1 := by decide
example : fillerWordCount "I like it" = 1 := by decide
example : fillerWordCount "dislike" = 0 := by decide
example : longPauseCount [⟨some 0, some 0⟩, ⟨some 150, some 160⟩] = 0 := by
  norm_num [longPauseCount, longPauseGo, isLongPause]
example : longPauseCount [⟨some 0, some 0⟩, ⟨some 2500, some 2600⟩] = 1 := by
  norm_num [longPauseCount, longPauseGo, isLongPause]
example : longPauseCount [⟨some 0, some 0⟩, ⟨some 3.5, some 4⟩] = 1 := by
  norm_num [longPauseCount, longPauseGo, isLongPause]
example : wordsPerMinute "um this is a test like really" 10 = 42 := by
  have h : wordCount "um this is a test like really" = 7 := by decide
  norm_num [wordsPerMinute, h]

/-! ## The claims -/

/-- Claim C1: for every ordered sequence of word entries, the long-pause
count equals the number of adjacent pairs whose gap (current word start
minus previous word end, both numeric) exceeds 2.0 seconds after
normalization, where a gap greater than 100 is divided by 1000 and a gap
of at most 100 is taken as seconds; pairs with a missing or non-numeric
offset are skipped.  A gap of 150 is not long, a gap of 2500 is long, a
gap of 3.5 is long. -/
theorem longPauseCount_matches_spec (ws : List WordEntry) :
    longPauseCount ws = (ws.zip ws.tail).countP specLongPair ∧
    longPauseCount [⟨some 0, some 0⟩, ⟨some 150, some 160⟩] = 0 ∧
    longPauseCount [⟨some 0, some 0⟩, ⟨some 2500, some 2600⟩] = 1 ∧
    longPauseCount [⟨some 0, some 0⟩, ⟨some 3.5, some 4⟩] = 1 ∧
    longPauseCount [⟨some 0, none⟩, ⟨some 5000, some 5100⟩] = 0 := by
  refine ⟨?_, ?_, ?_, ?_, ?_⟩
  · cases ws with
    | nil => rfl
    | cons w rest => simpa [longPauseCount] using longPauseGo_eq_countP rest w
  · norm_num [longPauseCount, longPauseGo, isLongPause]
  · norm_num [longPauseCount, longPauseGo, isLongPause]
  · norm_num [longPauseCount, longPauseGo, isLongPause]
  · norm_num [longPauseCount, longPauseGo, isLongPause]

/-- Claim C2: words per minute is `round(wordCount / (duration/60))` for
positive durations and 0 when the duration is 0, and is always a
non-negative integer; the word count is the number of non-empty tokens
after splitting on whitespace runs, so consecutive spaces do not change
it. -/
theorem wordsPerMinute_matches_spec (transcript : String) (pre post : List Char) (d : ℚ) :
    0 ≤ wordsPerMinute transcript d ∧
    (0 < d → wordsPerMinute transcript d = round ((wordCount transcript : ℚ) / (d / 60))) ∧
    (d = 0 → wordsPerMinute transcript d = 0) ∧
    wordCount ⟨pre ++ ' ' :: ' ' :: post⟩ = wordCount ⟨pre ++ ' ' :: post⟩ := by
  refine ⟨?_, ?_, ?_, ?_⟩
  · simp only [wordsPerMinute]
    by_cases h : (0 : ℚ) < d / 60
    · rw [if_pos h, round_eq]
      have hq : (0 : ℚ) ≤ (wordCount transcript : ℚ) / (d / 60) :=
        div_nonneg (Nat.cast_nonneg _) (le_of_lt h)
      exact Int.floor_nonneg.mpr (by linarith)
    · rw [if_neg h]
  · intro hd
    simp only [wordsPerMinute]
    rw [if_pos (div_pos hd (by norm_num))]
  · intro hd
    subst hd
    norm_num [wordsPerMinute]
  · simp only [wordCount, wordsOf]
    rw [splitWs_dup post pre]

/-- Claim C2 witness: concrete instances with the hypotheses
discharged. -/
theorem wordsPerMinute_matches_spec_witness :
    0 ≤ wordsPerMinute "hello world" 10 ∧
    wordsPerMinute "hello world" 10 = round ((wordCount "hello world" : ℚ) / (10 / 60)) ∧
    wordsPerMinute "hello world" 0 = 0 ∧
    wordCount ⟨['a'] ++ ' ' :: ' ' :: ['b']⟩ = wordCount ⟨['a'] ++ ' ' :: ['b']⟩ := by
  obtain ⟨h1, h2, -, h4⟩ := wordsPerMinute_matches_spec "hello world" ['a'] ['b'] (10 : ℚ)
  obtain ⟨-, -, h3, -⟩ := wordsPerMinute_matches_spec "hello world" ['a'] ['b'] (0 : ℚ)
  exact ⟨h1, h2 (by norm_num), h3 rfl, h4⟩

/-- Claim C3: the filler-word count is the sum, over the fixed lexicon,
of the non-overlapping case-insensitive word-boundary matches of each
entry; a lexicon word inside an unrelated word is not counted
("I like it" counts one, "dislike" counts none). -/
theorem fillerWordCount_matches_spec (transcript : String) :
    fillerWordCount transcript =
      (fillerWordsList.map (fun filler => countOcc filler transcript)).sum ∧
    fillerWordCount "I like it" = 1 ∧
    fillerWordCount "dislike" = 0 ∧
    fillerWordCount "Um, like, IT WAS LIKE, you know" = 4 := by
  refine ⟨?_, by decide, by decide, by decide⟩
  simpa [fillerWordCount] using
    foldl_add_eq (fun filler => countOcc filler transcript) fillerWordsList 0

/-- Claim C4: the pause/filler suggestion is the pause-heavy message
when `longPauseCount > 3` (taking priority), else the filler-heavy
message when `fillerWordCount > 5`, else the positive message; at
`(4, 10)` the pause-heavy message wins. -/
theorem pauseSuggestion_matches_spec (lp fc : ℕ) :
    (3 < lp → pauseSuggestion lp fc = pauseHeavyMsg lp) ∧
    (lp ≤ 3 → 5 < fc → pauseSuggestion lp fc = fillerHeavyMsg fc) ∧
    (lp ≤ 3 → fc ≤ 5 → pauseSuggestion lp fc = smoothFlowMsg) ∧
    pauseSuggestion 4 10 = pauseHeavyMsg 4 := by
  refine ⟨?_, ?_, ?_, rfl⟩
  · intro h
    simp only [pauseSuggestion]
    rw [if_pos h]
  · intro h1 h2
    simp only [pauseSuggestion]
    rw [if_neg (by omega), if_pos h2]
  · intro h1 h2
    simp only [pauseSuggestion]
    rw [if_neg (by omega), if_neg (by omega)]

/-- Claim C4 witness: one instance per branch, priority included. -/
theorem pauseSuggestion_matches_spec_witness :
    pauseSuggestion 4 10 = pauseHeavyMsg 4 ∧
    pauseSuggestion 2 10 = fillerHeavyMsg 10 ∧
    pauseSuggestion 2 3 = smoothFlowMsg :=
  ⟨(pauseSuggestion_matches_spec 4 10).1 (by norm_num),
   (pauseSuggestion_matches_spec 2 10).2.1 (by norm_num) (by norm_num),
   (pauseSuggestion_matches_spec 2 3).2.2.1 (by norm_num) (by norm_num)⟩

/-- Claim C5: when the upload and submit succeed but no poll within the
budget of 20 attempts returns `completed` or `error`, the handler
responds 500 with the timed-out user-facing message (the raw timeout
message as `details` only in development mode), and the temporary file
is still deleted. -/
theorem timeout_matches_spec (p : Provider) (nodeEnv : Option String)
    (filePath url id : String)
    (hu : p.upload = .ok url) (hs : p.submit url = .ok id)
    (hp : ∀ k, k < maxPolls →
      ∃ d, p.snaps k = .ok d ∧ d.status ≠ "completed" ∧ d.status ≠ "error") :
    analyzeHandler (some filePath) nodeEnv p =
      { response := .serverError "Analysis timed out. Please try with a shorter recording."
          (if nodeEnv = some "development" then
            some "Transcription timed out after 60 seconds" else none)
        fileDeleted := true
        providerCalls := 2 + maxPolls } := by
  have hloop : pollLoop p.snaps = (.error timedOutError, maxPolls) :=
    pollLoopGo_timeout p.snaps maxPolls 0 (fun k hk1 hk2 => hp k (by omega))
  have hmsg : errorMessageFor timedOutError =
      "Analysis timed out. Please try with a shorter recording." := by decide
  simp only [analyzeHandler, runPipeline, hu, hs, hloop]
  rw [hmsg]
  rfl

/-- Claim C5 witness: a provider stuck in `processing` times out and the
file is deleted. -/
theorem timeout_matches_spec_witness :
    analyzeHandler (some "uploads/audio.webm") none stuckProvider =
      { response := .serverError "Analysis timed out. Please try with a shorter recording." none
        fileDeleted := true
        providerCalls := 2 + maxPolls } := by
  have h := timeout_matches_spec stuckProvider none "uploads/audio.webm"
    "https://cdn.example/upload" "transcript-1" rfl rfl
    (fun k _hk => ⟨_, rfl, by decide, by decide⟩)
  simpa using h

/-- Claim C6: a request with no attached file is answered 400 with body
`{error: "No file uploaded."}`, and no provider call is made (the
outcome does not depend on the provider at all). -/
theorem noFile_matches_spec (nodeEnv : Option String) (p : Provider) :
    analyzeHandler none nodeEnv p =
      { response := .badRequest "No file uploaded.", fileDeleted := false
        providerCalls := 0 } := rfl

/-- Claim C7: a success response is emitted only when the poll loop
ended on a snapshot with status `completed` (that snapshot, the last one
polled, is the one analysed). -/
theorem success_requires_completed (file nodeEnv : Option String) (p : Provider)
    (body : SuccessBody) (fd : Bool) (n : ℕ)
    (h : analyzeHandler file nodeEnv p =
      { response := .ok body, fileDeleted := fd, providerCalls := n }) :
    ∃ d k, pollLoop p.snaps = (.ok d, k) ∧ d.status = "completed" ∧
      body = analyzeSnapshot d := by
  cases file with
  | none => simp [analyzeHandler] at h
  | some fp =>
    rcases hrp : runPipeline p with ⟨res, m⟩
    cases res with
    | error e => simp [analyzeHandler, hrp] at h
    | ok b =>
      simp only [analyzeHandler, hrp] at h
      have hb : b = body := by
        have := congrArg HandlerOutcome.response h
        simpa using this
      rw [runPipeline] at hrp
      rcases hu : p.upload with e | url
      · rw [hu] at hrp; simp at hrp
      · rw [hu] at hrp
        dsimp only at hrp
        rcases hsub : p.submit url with e | tid
        · rw [hsub] at hrp; simp at hrp
        · rw [hsub] at hrp
          dsimp only at hrp
          rcases hpl : pollLoop p.snaps with ⟨plres, k⟩
          rw [hpl] at hrp
          cases plres with
          | error e => simp at hrp
          | ok d =>
            dsimp only at hrp
            have hbd : b = analyzeSnapshot d := by
              have := congrArg Prod.fst hrp
              simpa using this.symm
            refine ⟨d, k, rfl, pollLoopGo_ok_status p.snaps maxPolls 0 d k hpl, ?_⟩
            rw [← hb]
            exact hbd

/-- Claim C7 witness: a provider that completes on the first poll. -/
theorem success_requires_completed_witness :
    ∃ d k, pollLoop demoProvider.snaps = (.ok d, k) ∧ d.status = "completed" ∧
      analyzeSnapshot demoSnap = analyzeSnapshot d :=
  success_requires_completed (some "uploads/audio.webm") none demoProvider
    (analyzeSnapshot demoSnap) true 3 (by rfl)

/-- Claim C8: the pacing suggestion is the "too fast" message exactly
when WPM > 160, the "too slow" message exactly when WPM < 130, and the
"excellent pacing" message on [130, 160]. -/
theorem pacingSuggestion_matches_spec (w : ℤ) :
    (160 < w → pacingSuggestion w = tooFastMsg) ∧
    (w < 130 → pacingSuggestion w = tooSlowMsg) ∧
    (130 ≤ w → w ≤ 160 → pacingSuggestion w = excellentPacingMsg) := by
  refine ⟨?_, ?_, ?_⟩
  · intro h
    simp only [pacingSuggestion]
    rw [if_pos h]
  · intro h
    simp only [pacingSuggestion]
    rw [if_neg (by omega), if_pos h]
  · intro h1 h2
    simp only [pacingSuggestion]
    rw [if_neg (by omega), if_neg (by omega)]

/-- Claim C8 witness: one instance per band. -/
theorem pacingSuggestion_matches_spec_witness :
    pacingSuggestion 170 = tooFastMsg ∧
    pacingSuggestion 100 = tooSlowMsg ∧
    pacingSuggestion 145 = excellentPacingMsg :=
  ⟨(pacingSuggestion_matches_spec 170).1 (by norm_num),
   (pacingSuggestion_matches_spec 100).2.1 (by norm_num),
   (pacingSuggestion_matches_spec 145).2.2 (by norm_num) (by norm_num)⟩

/-- Claim C9 counterexample: the code keys the `details` field on
`NODE_ENV === 'development'`, not on "non-production"; with
`NODE_ENV = "test"` (a non-production mode) the field is omitted, so it
is not the case that every non-production failure carries `details`. -/
theorem details_counterexample :
    ¬ (∀ (nodeEnv : Option String) (p : Provider) (e : JsError) (filePath : String) (n : ℕ),
        runPipeline p = (.error e, n) → nodeEnv ≠ some "production" →
        (analyzeHandler (some filePath) nodeEnv p).response.detailsField = some e.message) := by
  intro hclaim
  have h := hclaim (some "test") failingProvider { message := "boom", status := none }
    "uploads/audio.webm" 1 rfl (by decide)
  rw [show (analyzeHandler (some "uploads/audio.webm") (some "test")
      failingProvider).response.detailsField = none from rfl] at h
  exact Option.noConfusion h

/-- Claim C9 (amended): on every failure of the pipeline the 500 body
carries `details` equal to the raw error message exactly when
`NODE_ENV` is `development`, and omits it otherwise — in particular in
production mode. -/
theorem details_amended (nodeEnv : Option String) (p : Provider) (e : JsError)
    (filePath : String) (n : ℕ) (h : runPipeline p = (.error e, n)) :
    (analyzeHandler (some filePath) nodeEnv p).response =
      .serverError (errorMessageFor e)
        (if nodeEnv = some "development" then some e.message else none) ∧
    ((analyzeHandler (some filePath) nodeEnv p).response.detailsField = some e.message ↔
      nodeEnv = some "development") ∧
    (nodeEnv = some "production" →
      (analyzeHandler (some filePath) nodeEnv p).response.detailsField = none) := by
  have hr : (analyzeHandler (some filePath) nodeEnv p).response =
      .serverError (errorMessageFor e)
        (if nodeEnv = some "development" then some e.message else none) := by
    simp only [analyzeHandler, h]
  refine ⟨hr, ?_, ?_⟩
  · rw [hr]
    by_cases hdev : nodeEnv = some "development"
    · simp [Response.detailsField, hdev]
    · simp [Response.detailsField, hdev]
  · intro hprod
    subst hprod
    rw [hr]
    simp [Response.detailsField]

/-- Claim C9 witness: in development mode the `details` field carries
the raw message. -/
theorem details_amended_witness :
    (analyzeHandler (some "uploads/audio.webm") (some "development")
        failingProvider).response.detailsField =
      some ({ message := "boom", status := none } : JsError).message ↔
    (some "development" : Option String) = some "development" :=
  (details_amended (some "development") failingProvider
    { message := "boom", status := none } "uploads/audio.webm" 1 rfl).2.1

/-- Claim C10: a completed payload with a null/absent text or a
missing/non-array words field is still analysed: the text defaults to
the empty string (word count 0, filler count 0) and the words default to
the empty list (long-pause count 0). -/
theorem defensive_defaults (transcriptData : Snapshot) :
    (transcriptData.text = none →
      (analyzeSnapshot transcriptData).transcript = "" ∧
      wordCount (analyzeSnapshot transcriptData).transcript = 0 ∧
      (analyzeSnapshot transcriptData).fillerWordCount = 0) ∧
    (transcriptData.words = none →
      longPauseCount (wordsWithTimestamps transcriptData) = 0) := by
  constructor
  · intro ht
    have h1 : (analyzeSnapshot transcriptData).transcript = "" := by
      simp [analyzeSnapshot, ht]
    refine ⟨h1, ?_, ?_⟩
    · rw [h1]; rfl
    · simp only [analyzeSnapshot, ht]
      rfl
  · intro hw
    simp [wordsWithTimestamps, hw, longPauseCount]

/-- Claim C10 witness: the nullish completed snapshot. -/
theorem defensive_defaults_witness :
    (analyzeSnapshot nullishSnap).transcript = "" ∧
    wordCount (analyzeSnapshot nullishSnap).transcript = 0 ∧
    (analyzeSnapshot nullishSnap).fillerWordCount = 0 ∧
    longPauseCount (wordsWithTimestamps nullishSnap) = 0 := by
  obtain ⟨h1, h2⟩ := defensive_defaults nullishSnap
  obtain ⟨a, b, c⟩ := h1 rfl
  exact ⟨a, b, c, h2 rfl⟩

end Newspeack
